import Mathlib

set_option autoImplicit false

/-!
Shallow embedding of three source files of the tock repository:

* chips/sam4l/src/dma.rs — the PDCA DMA channel driver (peripheral
  enumeration, per-channel state machine, shared clock-gating refcount);
* userland/tools/elf2tbf/src/main.rs — the TBF image builder layout and
  padding arithmetic;
* boards/nrf52dk/src/main.rs — the platform driver dispatch.

Rust machine integers are modelled as `Nat` with explicit `% 2 ^ w`
reductions where a cast or wrap-around matters; fallible calls (panics)
return `Option`.
-/

/-- The peripheral function a channel is assigned to: dma.rs `DMAPeripheral`,
a `repr(u8)` enumeration with explicit discriminants (note: no variant
carries the discriminant 13; the source jumps from `CATB_RX = 12` to
`IISC_CH0_RX = 14`). -/
inductive DMAPeripheral where
  | USART0_RX
  | USART1_RX
  | USART2_RX
  | USART3_RX
  | SPI_RX
  | TWIM0_RX
  | TWIM1_RX
  | TWIM2_RX
  | TWIM3_RX
  | TWIS0_RX
  | TWIS1_RX
  | ADCIFE_RX
  | CATB_RX
  | IISC_CH0_RX
  | IISC_CH1_RX
  | PARC_RX
  | AESA_RX
  | USART0_TX
  | USART1_TX
  | USART2_TX
  | USART3_TX
  | SPI_TX
  | TWIM0_TX
  | TWIM1_TX
  | TWIM2_TX
  | TWIM3_TX
  | TWIS0_TX
  | TWIS1_TX
  | ADCIFE_TX
  | CATB_TX
  | ABDACB_SDR0_TX
  | ABDACB_SDR1_TX
  | IISC_CH0_TX
  | IISC_CH1_TX
  | DACC_TX
  | AESA_TX
  | LCDCA_ACMDR_TX
  | LCDCA_ABMDR_TX
  | UNUSED39
  | UNUSED40
  | UNUSED41
  | UNUSED42
  | UNUSED43
  | UNUSED44
  | UNUSED45
  | UNUSED46
  | UNUSED47
  | UNUSED48
  | UNUSED49
  | UNUSED50
  | UNUSED51
  | UNUSED52
  | UNUSED53
  | UNUSED54
  | UNUSED55
  | UNUSED56
  | UNUSED57
  | UNUSED58
  | UNUSED59
  | UNUSED60
  | UNUSED61
  | UNUSED62
  | UNUSED63
  | UNUSED64
  | UNUSED65
  | UNUSED66
  | UNUSED67
  | UNUSED68
  | UNUSED69
  | UNUSED70
  | UNUSED71
  | UNUSED72
  | UNUSED73
  | UNUSED74
  | UNUSED75
  | UNUSED76
  | UNUSED77
  | UNUSED78
  | UNUSED79
  | UNUSED80
  | UNUSED81
  | UNUSED82
  | UNUSED83
  | UNUSED84
  | UNUSED85
  | UNUSED86
  | UNUSED87
  | UNUSED88
  | UNUSED89
  | UNUSED90
  | UNUSED91
  | UNUSED92
  | UNUSED93
  | UNUSED94
  | UNUSED95
  | UNUSED96
  | UNUSED97
  | UNUSED98
  | UNUSED99
  | UNUSED100
  | UNUSED101
  | UNUSED102
  | UNUSED103
  | UNUSED104
  | UNUSED105
  | UNUSED106
  | UNUSED107
  | UNUSED108
  | UNUSED109
  | UNUSED110
  | UNUSED111
  | UNUSED112
  | UNUSED113
  | UNUSED114
  | UNUSED115
  | UNUSED116
  | UNUSED117
  | UNUSED118
  | UNUSED119
  | UNUSED120
  | UNUSED121
  | UNUSED122
  | UNUSED123
  | UNUSED124
  | UNUSED125
  | UNUSED126
  | UNUSED127
  | UNUSED128
  | UNUSED129
  | UNUSED130
  | UNUSED131
  | UNUSED132
  | UNUSED133
  | UNUSED134
  | UNUSED135
  | UNUSED136
  | UNUSED137
  | UNUSED138
  | UNUSED139
  | UNUSED140
  | UNUSED141
  | UNUSED142
  | UNUSED143
  | UNUSED144
  | UNUSED145
  | UNUSED146
  | UNUSED147
  | UNUSED148
  | UNUSED149
  | UNUSED150
  | UNUSED151
  | UNUSED152
  | UNUSED153
  | UNUSED154
  | UNUSED155
  | UNUSED156
  | UNUSED157
  | UNUSED158
  | UNUSED159
  | UNUSED160
  | UNUSED161
  | UNUSED162
  | UNUSED163
  | UNUSED164
  | UNUSED165
  | UNUSED166
  | UNUSED167
  | UNUSED168
  | UNUSED169
  | UNUSED170
  | UNUSED171
  | UNUSED172
  | UNUSED173
  | UNUSED174
  | UNUSED175
  | UNUSED176
  | UNUSED177
  | UNUSED178
  | UNUSED179
  | UNUSED180
  | UNUSED181
  | UNUSED182
  | UNUSED183
  | UNUSED184
  | UNUSED185
  | UNUSED186
  | UNUSED187
  | UNUSED188
  | UNUSED189
  | UNUSED190
  | UNUSED191
  | UNUSED192
  | UNUSED193
  | UNUSED194
  | UNUSED195
  | UNUSED196
  | UNUSED197
  | UNUSED198
  | UNUSED199
  | UNUSED200
  | UNUSED201
  | UNUSED202
  | UNUSED203
  | UNUSED204
  | UNUSED205
  | UNUSED206
  | UNUSED207
  | UNUSED208
  | UNUSED209
  | UNUSED210
  | UNUSED211
  | UNUSED212
  | UNUSED213
  | UNUSED214
  | UNUSED215
  | UNUSED216
  | UNUSED217
  | UNUSED218
  | UNUSED219
  | UNUSED220
  | UNUSED221
  | UNUSED222
  | UNUSED223
  | UNUSED224
  | UNUSED225
  | UNUSED226
  | UNUSED227
  | UNUSED228
  | UNUSED229
  | UNUSED230
  | UNUSED231
  | UNUSED232
  | UNUSED233
  | UNUSED234
  | UNUSED235
  | UNUSED236
  | UNUSED237
  | UNUSED238
  | UNUSED239
  | UNUSED240
  | UNUSED241
  | UNUSED242
  | UNUSED243
  | UNUSED244
  | UNUSED245
  | UNUSED246
  | UNUSED247
  | UNUSED248
  | UNUSED249
  | UNUSED250
  | UNUSED251
  | UNUSED252
  | UNUSED253
  | UNUSED254
  | UNUSED255
  deriving DecidableEq

/-- The `repr(u8)` discriminant of a `DMAPeripheral` variant (the effect of
`self as u8` in dma.rs). -/
def DMAPeripheral.toU8 : DMAPeripheral -> Nat
  | .USART0_RX => 0
  | .USART1_RX => 1
  | .USART2_RX => 2
  | .USART3_RX => 3
  | .SPI_RX => 4
  | .TWIM0_RX => 5
  | .TWIM1_RX => 6
  | .TWIM2_RX => 7
  | .TWIM3_RX => 8
  | .TWIS0_RX => 9
  | .TWIS1_RX => 10
  | .ADCIFE_RX => 11
  | .CATB_RX => 12
  | .IISC_CH0_RX => 14
  | .IISC_CH1_RX => 15
  | .PARC_RX => 16
  | .AESA_RX => 17
  | .USART0_TX => 18
  | .USART1_TX => 19
  | .USART2_TX => 20
  | .USART3_TX => 21
  | .SPI_TX => 22
  | .TWIM0_TX => 23
  | .TWIM1_TX => 24
  | .TWIM2_TX => 25
  | .TWIM3_TX => 26
  | .TWIS0_TX => 27
  | .TWIS1_TX => 28
  | .ADCIFE_TX => 29
  | .CATB_TX => 30
  | .ABDACB_SDR0_TX => 31
  | .ABDACB_SDR1_TX => 32
  | .IISC_CH0_TX => 33
  | .IISC_CH1_TX => 34
  | .DACC_TX => 35
  | .AESA_TX => 36
  | .LCDCA_ACMDR_TX => 37
  | .LCDCA_ABMDR_TX => 38
  | .UNUSED39 => 39
  | .UNUSED40 => 40
  | .UNUSED41 => 41
  | .UNUSED42 => 42
  | .UNUSED43 => 43
  | .UNUSED44 => 44
  | .UNUSED45 => 45
  | .UNUSED46 => 46
  | .UNUSED47 => 47
  | .UNUSED48 => 48
  | .UNUSED49 => 49
  | .UNUSED50 => 50
  | .UNUSED51 => 51
  | .UNUSED52 => 52
  | .UNUSED53 => 53
  | .UNUSED54 => 54
  | .UNUSED55 => 55
  | .UNUSED56 => 56
  | .UNUSED57 => 57
  | .UNUSED58 => 58
  | .UNUSED59 => 59
  | .UNUSED60 => 60
  | .UNUSED61 => 61
  | .UNUSED62 => 62
  | .UNUSED63 => 63
  | .UNUSED64 => 64
  | .UNUSED65 => 65
  | .UNUSED66 => 66
  | .UNUSED67 => 67
  | .UNUSED68 => 68
  | .UNUSED69 => 69
  | .UNUSED70 => 70
  | .UNUSED71 => 71
  | .UNUSED72 => 72
  | .UNUSED73 => 73
  | .UNUSED74 => 74
  | .UNUSED75 => 75
  | .UNUSED76 => 76
  | .UNUSED77 => 77
  | .UNUSED78 => 78
  | .UNUSED79 => 79
  | .UNUSED80 => 80
  | .UNUSED81 => 81
  | .UNUSED82 => 82
  | .UNUSED83 => 83
  | .UNUSED84 => 84
  | .UNUSED85 => 85
  | .UNUSED86 => 86
  | .UNUSED87 => 87
  | .UNUSED88 => 88
  | .UNUSED89 => 89
  | .UNUSED90 => 90
  | .UNUSED91 => 91
  | .UNUSED92 => 92
  | .UNUSED93 => 93
  | .UNUSED94 => 94
  | .UNUSED95 => 95
  | .UNUSED96 => 96
  | .UNUSED97 => 97
  | .UNUSED98 => 98
  | .UNUSED99 => 99
  | .UNUSED100 => 100
  | .UNUSED101 => 101
  | .UNUSED102 => 102
  | .UNUSED103 => 103
  | .UNUSED104 => 104
  | .UNUSED105 => 105
  | .UNUSED106 => 106
  | .UNUSED107 => 107
  | .UNUSED108 => 108
  | .UNUSED109 => 109
  | .UNUSED110 => 110
  | .UNUSED111 => 111
  | .UNUSED112 => 112
  | .UNUSED113 => 113
  | .UNUSED114 => 114
  | .UNUSED115 => 115
  | .UNUSED116 => 116
  | .UNUSED117 => 117
  | .UNUSED118 => 118
  | .UNUSED119 => 119
  | .UNUSED120 => 120
  | .UNUSED121 => 121
  | .UNUSED122 => 122
  | .UNUSED123 => 123
  | .UNUSED124 => 124
  | .UNUSED125 => 125
  | .UNUSED126 => 126
  | .UNUSED127 => 127
  | .UNUSED128 => 128
  | .UNUSED129 => 129
  | .UNUSED130 => 130
  | .UNUSED131 => 131
  | .UNUSED132 => 132
  | .UNUSED133 => 133
  | .UNUSED134 => 134
  | .UNUSED135 => 135
  | .UNUSED136 => 136
  | .UNUSED137 => 137
  | .UNUSED138 => 138
  | .UNUSED139 => 139
  | .UNUSED140 => 140
  | .UNUSED141 => 141
  | .UNUSED142 => 142
  | .UNUSED143 => 143
  | .UNUSED144 => 144
  | .UNUSED145 => 145
  | .UNUSED146 => 146
  | .UNUSED147 => 147
  | .UNUSED148 => 148
  | .UNUSED149 => 149
  | .UNUSED150 => 150
  | .UNUSED151 => 151
  | .UNUSED152 => 152
  | .UNUSED153 => 153
  | .UNUSED154 => 154
  | .UNUSED155 => 155
  | .UNUSED156 => 156
  | .UNUSED157 => 157
  | .UNUSED158 => 158
  | .UNUSED159 => 159
  | .UNUSED160 => 160
  | .UNUSED161 => 161
  | .UNUSED162 => 162
  | .UNUSED163 => 163
  | .UNUSED164 => 164
  | .UNUSED165 => 165
  | .UNUSED166 => 166
  | .UNUSED167 => 167
  | .UNUSED168 => 168
  | .UNUSED169 => 169
  | .UNUSED170 => 170
  | .UNUSED171 => 171
  | .UNUSED172 => 172
  | .UNUSED173 => 173
  | .UNUSED174 => 174
  | .UNUSED175 => 175
  | .UNUSED176 => 176
  | .UNUSED177 => 177
  | .UNUSED178 => 178
  | .UNUSED179 => 179
  | .UNUSED180 => 180
  | .UNUSED181 => 181
  | .UNUSED182 => 182
  | .UNUSED183 => 183
  | .UNUSED184 => 184
  | .UNUSED185 => 185
  | .UNUSED186 => 186
  | .UNUSED187 => 187
  | .UNUSED188 => 188
  | .UNUSED189 => 189
  | .UNUSED190 => 190
  | .UNUSED191 => 191
  | .UNUSED192 => 192
  | .UNUSED193 => 193
  | .UNUSED194 => 194
  | .UNUSED195 => 195
  | .UNUSED196 => 196
  | .UNUSED197 => 197
  | .UNUSED198 => 198
  | .UNUSED199 => 199
  | .UNUSED200 => 200
  | .UNUSED201 => 201
  | .UNUSED202 => 202
  | .UNUSED203 => 203
  | .UNUSED204 => 204
  | .UNUSED205 => 205
  | .UNUSED206 => 206
  | .UNUSED207 => 207
  | .UNUSED208 => 208
  | .UNUSED209 => 209
  | .UNUSED210 => 210
  | .UNUSED211 => 211
  | .UNUSED212 => 212
  | .UNUSED213 => 213
  | .UNUSED214 => 214
  | .UNUSED215 => 215
  | .UNUSED216 => 216
  | .UNUSED217 => 217
  | .UNUSED218 => 218
  | .UNUSED219 => 219
  | .UNUSED220 => 220
  | .UNUSED221 => 221
  | .UNUSED222 => 222
  | .UNUSED223 => 223
  | .UNUSED224 => 224
  | .UNUSED225 => 225
  | .UNUSED226 => 226
  | .UNUSED227 => 227
  | .UNUSED228 => 228
  | .UNUSED229 => 229
  | .UNUSED230 => 230
  | .UNUSED231 => 231
  | .UNUSED232 => 232
  | .UNUSED233 => 233
  | .UNUSED234 => 234
  | .UNUSED235 => 235
  | .UNUSED236 => 236
  | .UNUSED237 => 237
  | .UNUSED238 => 238
  | .UNUSED239 => 239
  | .UNUSED240 => 240
  | .UNUSED241 => 241
  | .UNUSED242 => 242
  | .UNUSED243 => 243
  | .UNUSED244 => 244
  | .UNUSED245 => 245
  | .UNUSED246 => 246
  | .UNUSED247 => 247
  | .UNUSED248 => 248
  | .UNUSED249 => 249
  | .UNUSED250 => 250
  | .UNUSED251 => 251
  | .UNUSED252 => 252
  | .UNUSED253 => 253
  | .UNUSED254 => 254
  | .UNUSED255 => 255

set_option maxRecDepth 8000 in
/-- `DMAPeripheral::lookup` from dma.rs: maps an 8-bit peripheral-select value
to a variant.  The source is a `match num` over the literals 0..=255 (with no
arm for 13) ending in a `_ => UNUSED255` wildcard; it is rendered here as the
equivalent first-match-wins chain of equality tests. -/
def DMAPeripheral.lookup (num : Nat) : DMAPeripheral :=
  if num = 0 then .USART0_RX
  else if num = 1 then .USART1_RX
  else if num = 2 then .USART2_RX
  else if num = 3 then .USART3_RX
  else if num = 4 then .SPI_RX
  else if num = 5 then .TWIM0_RX
  else if num = 6 then .TWIM1_RX
  else if num = 7 then .TWIM2_RX
  else if num = 8 then .TWIM3_RX
  else if num = 9 then .TWIS0_RX
  else if num = 10 then .TWIS1_RX
  else if num = 11 then .ADCIFE_RX
  else if num = 12 then .CATB_RX
  else if num = 14 then .IISC_CH0_RX
  else if num = 15 then .IISC_CH1_RX
  else if num = 16 then .PARC_RX
  else if num = 17 then .AESA_RX
  else if num = 18 then .USART0_TX
  else if num = 19 then .USART1_TX
  else if num = 20 then .USART2_TX
  else if num = 21 then .USART3_TX
  else if num = 22 then .SPI_TX
  else if num = 23 then .TWIM0_TX
  else if num = 24 then .TWIM1_TX
  else if num = 25 then .TWIM2_TX
  else if num = 26 then .TWIM3_TX
  else if num = 27 then .TWIS0_TX
  else if num = 28 then .TWIS1_TX
  else if num = 29 then .ADCIFE_TX
  else if num = 30 then .CATB_TX
  else if num = 31 then .ABDACB_SDR0_TX
  else if num = 32 then .ABDACB_SDR1_TX
  else if num = 33 then .IISC_CH0_TX
  else if num = 34 then .IISC_CH1_TX
  else if num = 35 then .DACC_TX
  else if num = 36 then .AESA_TX
  else if num = 37 then .LCDCA_ACMDR_TX
  else if num = 38 then .LCDCA_ABMDR_TX
  else if num = 39 then .UNUSED39
  else if num = 40 then .UNUSED40
  else if num = 41 then .UNUSED41
  else if num = 42 then .UNUSED42
  else if num = 43 then .UNUSED43
  else if num = 44 then .UNUSED44
  else if num = 45 then .UNUSED45
  else if num = 46 then .UNUSED46
  else if num = 47 then .UNUSED47
  else if num = 48 then .UNUSED48
  else if num = 49 then .UNUSED49
  else if num = 50 then .UNUSED50
  else if num = 51 then .UNUSED51
  else if num = 52 then .UNUSED52
  else if num = 53 then .UNUSED53
  else if num = 54 then .UNUSED54
  else if num = 55 then .UNUSED55
  else if num = 56 then .UNUSED56
  else if num = 57 then .UNUSED57
  else if num = 58 then .UNUSED58
  else if num = 59 then .UNUSED59
  else if num = 60 then .UNUSED60
  else if num = 61 then .UNUSED61
  else if num = 62 then .UNUSED62
  else if num = 63 then .UNUSED63
  else if num = 64 then .UNUSED64
  else if num = 65 then .UNUSED65
  else if num = 66 then .UNUSED66
  else if num = 67 then .UNUSED67
  else if num = 68 then .UNUSED68
  else if num = 69 then .UNUSED69
  else if num = 70 then .UNUSED70
  else if num = 71 then .UNUSED71
  else if num = 72 then .UNUSED72
  else if num = 73 then .UNUSED73
  else if num = 74 then .UNUSED74
  else if num = 75 then .UNUSED75
  else if num = 76 then .UNUSED76
  else if num = 77 then .UNUSED77
  else if num = 78 then .UNUSED78
  else if num = 79 then .UNUSED79
  else if num = 80 then .UNUSED80
  else if num = 81 then .UNUSED81
  else if num = 82 then .UNUSED82
  else if num = 83 then .UNUSED83
  else if num = 84 then .UNUSED84
  else if num = 85 then .UNUSED85
  else if num = 86 then .UNUSED86
  else if num = 87 then .UNUSED87
  else if num = 88 then .UNUSED88
  else if num = 89 then .UNUSED89
  else if num = 90 then .UNUSED90
  else if num = 91 then .UNUSED91
  else if num = 92 then .UNUSED92
  else if num = 93 then .UNUSED93
  else if num = 94 then .UNUSED94
  else if num = 95 then .UNUSED95
  else if num = 96 then .UNUSED96
  else if num = 97 then .UNUSED97
  else if num = 98 then .UNUSED98
  else if num = 99 then .UNUSED99
  else if num = 100 then .UNUSED100
  else if num = 101 then .UNUSED101
  else if num = 102 then .UNUSED102
  else if num = 103 then .UNUSED103
  else if num = 104 then .UNUSED104
  else if num = 105 then .UNUSED105
  else if num = 106 then .UNUSED106
  else if num = 107 then .UNUSED107
  else if num = 108 then .UNUSED108
  else if num = 109 then .UNUSED109
  else if num = 110 then .UNUSED110
  else if num = 111 then .UNUSED111
  else if num = 112 then .UNUSED112
  else if num = 113 then .UNUSED113
  else if num = 114 then .UNUSED114
  else if num = 115 then .UNUSED115
  else if num = 116 then .UNUSED116
  else if num = 117 then .UNUSED117
  else if num = 118 then .UNUSED118
  else if num = 119 then .UNUSED119
  else if num = 120 then .UNUSED120
  else if num = 121 then .UNUSED121
  else if num = 122 then .UNUSED122
  else if num = 123 then .UNUSED123
  else if num = 124 then .UNUSED124
  else if num = 125 then .UNUSED125
  else if num = 126 then .UNUSED126
  else if num = 127 then .UNUSED127
  else if num = 128 then .UNUSED128
  else if num = 129 then .UNUSED129
  else if num = 130 then .UNUSED130
  else if num = 131 then .UNUSED131
  else if num = 132 then .UNUSED132
  else if num = 133 then .UNUSED133
  else if num = 134 then .UNUSED134
  else if num = 135 then .UNUSED135
  else if num = 136 then .UNUSED136
  else if num = 137 then .UNUSED137
  else if num = 138 then .UNUSED138
  else if num = 139 then .UNUSED139
  else if num = 140 then .UNUSED140
  else if num = 141 then .UNUSED141
  else if num = 142 then .UNUSED142
  else if num = 143 then .UNUSED143
  else if num = 144 then .UNUSED144
  else if num = 145 then .UNUSED145
  else if num = 146 then .UNUSED146
  else if num = 147 then .UNUSED147
  else if num = 148 then .UNUSED148
  else if num = 149 then .UNUSED149
  else if num = 150 then .UNUSED150
  else if num = 151 then .UNUSED151
  else if num = 152 then .UNUSED152
  else if num = 153 then .UNUSED153
  else if num = 154 then .UNUSED154
  else if num = 155 then .UNUSED155
  else if num = 156 then .UNUSED156
  else if num = 157 then .UNUSED157
  else if num = 158 then .UNUSED158
  else if num = 159 then .UNUSED159
  else if num = 160 then .UNUSED160
  else if num = 161 then .UNUSED161
  else if num = 162 then .UNUSED162
  else if num = 163 then .UNUSED163
  else if num = 164 then .UNUSED164
  else if num = 165 then .UNUSED165
  else if num = 166 then .UNUSED166
  else if num = 167 then .UNUSED167
  else if num = 168 then .UNUSED168
  else if num = 169 then .UNUSED169
  else if num = 170 then .UNUSED170
  else if num = 171 then .UNUSED171
  else if num = 172 then .UNUSED172
  else if num = 173 then .UNUSED173
  else if num = 174 then .UNUSED174
  else if num = 175 then .UNUSED175
  else if num = 176 then .UNUSED176
  else if num = 177 then .UNUSED177
  else if num = 178 then .UNUSED178
  else if num = 179 then .UNUSED179
  else if num = 180 then .UNUSED180
  else if num = 181 then .UNUSED181
  else if num = 182 then .UNUSED182
  else if num = 183 then .UNUSED183
  else if num = 184 then .UNUSED184
  else if num = 185 then .UNUSED185
  else if num = 186 then .UNUSED186
  else if num = 187 then .UNUSED187
  else if num = 188 then .UNUSED188
  else if num = 189 then .UNUSED189
  else if num = 190 then .UNUSED190
  else if num = 191 then .UNUSED191
  else if num = 192 then .UNUSED192
  else if num = 193 then .UNUSED193
  else if num = 194 then .UNUSED194
  else if num = 195 then .UNUSED195
  else if num = 196 then .UNUSED196
  else if num = 197 then .UNUSED197
  else if num = 198 then .UNUSED198
  else if num = 199 then .UNUSED199
  else if num = 200 then .UNUSED200
  else if num = 201 then .UNUSED201
  else if num = 202 then .UNUSED202
  else if num = 203 then .UNUSED203
  else if num = 204 then .UNUSED204
  else if num = 205 then .UNUSED205
  else if num = 206 then .UNUSED206
  else if num = 207 then .UNUSED207
  else if num = 208 then .UNUSED208
  else if num = 209 then .UNUSED209
  else if num = 210 then .UNUSED210
  else if num = 211 then .UNUSED211
  else if num = 212 then .UNUSED212
  else if num = 213 then .UNUSED213
  else if num = 214 then .UNUSED214
  else if num = 215 then .UNUSED215
  else if num = 216 then .UNUSED216
  else if num = 217 then .UNUSED217
  else if num = 218 then .UNUSED218
  else if num = 219 then .UNUSED219
  else if num = 220 then .UNUSED220
  else if num = 221 then .UNUSED221
  else if num = 222 then .UNUSED222
  else if num = 223 then .UNUSED223
  else if num = 224 then .UNUSED224
  else if num = 225 then .UNUSED225
  else if num = 226 then .UNUSED226
  else if num = 227 then .UNUSED227
  else if num = 228 then .UNUSED228
  else if num = 229 then .UNUSED229
  else if num = 230 then .UNUSED230
  else if num = 231 then .UNUSED231
  else if num = 232 then .UNUSED232
  else if num = 233 then .UNUSED233
  else if num = 234 then .UNUSED234
  else if num = 235 then .UNUSED235
  else if num = 236 then .UNUSED236
  else if num = 237 then .UNUSED237
  else if num = 238 then .UNUSED238
  else if num = 239 then .UNUSED239
  else if num = 240 then .UNUSED240
  else if num = 241 then .UNUSED241
  else if num = 242 then .UNUSED242
  else if num = 243 then .UNUSED243
  else if num = 244 then .UNUSED244
  else if num = 245 then .UNUSED245
  else if num = 246 then .UNUSED246
  else if num = 247 then .UNUSED247
  else if num = 248 then .UNUSED248
  else if num = 249 then .UNUSED249
  else if num = 250 then .UNUSED250
  else if num = 251 then .UNUSED251
  else if num = 252 then .UNUSED252
  else if num = 253 then .UNUSED253
  else if num = 254 then .UNUSED254
  else if num = 255 then .UNUSED255
  else .UNUSED255
/-- Transfer width of a channel: dma.rs `DMAWidth` (`repr(u8)`). -/
inductive DMAWidth where
  | Width8Bit
  | Width16Bit
  | Width32Bit
  deriving DecidableEq

/-- Discriminant of `DMAWidth` (the value `self.width.get() as u32` written
into the Mode SIZE field by `prepare_xfer`). -/
def DMAWidth.toU8 : DMAWidth -> Nat
  | .Width8Bit => 0
  | .Width16Bit => 1
  | .Width32Bit => 2

/-- Divisor used by `prepare_xfer` to turn a byte length into a transfer
count: 1 when the DMA acts on bytes, 2 on halfwords, 4 on words. -/
def DMAWidth.bytesPerUnit : DMAWidth -> Nat
  | .Width8Bit => 1
  | .Width16Bit => 2
  | .Width32Bit => 4

/-- Interrupt-mask state of a channel (the IMR register): one flag per field
of the `Interrupt` register bitfield (TERR, TRC, RCZ).  A write to IER
enables the bits set in the written value, a write to IDR disables them. -/
structure IntMask where
  terr : Bool
  trc : Bool
  rcz : Bool
  deriving DecidableEq

/-- Effect of `idr.write(Interrupt::TERR::SET + Interrupt::TRC::SET +
Interrupt::RCZ::SET)`: every channel interrupt disabled. -/
def IntMask.allOff : IntMask := { terr := false, trc := false, rcz := false }

/-- A `&'static mut [u8]` transfer buffer: the address of its first element
together with its byte contents (so `buf.len()` is `data.length`). -/
structure Buffer where
  addr : Nat
  data : List Nat
  deriving DecidableEq

/-- State of one PDCA channel: the channel's memory-mapped registers
(modelled as stored values; `ten` is the SR TEN status bit, set by the CR
TEN command and cleared by CR TDIS) together with the `DMAChannel` struct
fields of dma.rs.  `hasClient` models whether the `client` cell holds a
reference. -/
structure DMAChannel where
  mar : Nat
  psr : DMAPeripheral
  tcr : Nat
  marr : Nat
  tcrr : Nat
  mrSize : Nat
  imr : IntMask
  ten : Bool
  hasClient : Bool
  width : DMAWidth
  enabled : Bool
  buffer : Option Buffer
  deriving DecidableEq

/-- `DMAChannel::new`: client empty, width 8-bit, channel disabled, buffer
slot empty.  The MMIO registers are not written by `new`; their hardware
reset values are taken as zero / all-clear. -/
def DMAChannel.new : DMAChannel :=
  { mar := 0
    psr := DMAPeripheral.USART0_RX
    tcr := 0
    marr := 0
    tcrr := 0
    mrSize := 0
    imr := IntMask.allOff
    ten := false
    hasClient := false
    width := DMAWidth.Width8Bit
    enabled := false
    buffer := none }

/-- `DMAChannel::prepare_xfer` from dma.rs.  `len` is clamped to
`buf.len() / bytes_per_width`; the Mode SIZE field (2 bits), the
peripheral-select register, the memory-address reload register
(`&buf[0] as *const u8 as u32`), and the 16-bit TCV field of the
transfer-counter reload register are written; the TRC interrupt is enabled;
the buffer is stored in the channel's `TakeCell`, replacing any previous
occupant.  The call returns `none` when `buf` is empty: the source indexes
`&buf[0]`, which panics on a zero-length slice (the source carries a
`TODO(alevy): take care of zero length case` comment). -/
def DMAChannel.prepare_xfer (c : DMAChannel) (pid : DMAPeripheral)
    (buf : Buffer) (len : Nat) : Option DMAChannel :=
  let maxlen := buf.data.length / c.width.bytesPerUnit
  let len2 := min len maxlen
  match buf.data with
  | [] => none
  | _ :: _ =>
    some { c with
      mrSize := c.width.toU8 % 2 ^ 2
      psr := pid
      marr := buf.addr % 2 ^ 32
      tcrr := len2 % 2 ^ 16
      imr := { c.imr with trc := true }
      buffer := some buf }

/-- `DMAChannel::start_xfer`: `cr.write(Control::TEN::SET)` sets the
transfer-enabled status. -/
def DMAChannel.start_xfer (c : DMAChannel) : DMAChannel :=
  { c with ten := true }

/-- `DMAChannel::do_xfer`: `prepare_xfer` then `start_xfer` (so it panics on
an empty buffer exactly when `prepare_xfer` does). -/
def DMAChannel.do_xfer (c : DMAChannel) (pid : DMAPeripheral) (buf : Buffer)
    (len : Nat) : Option DMAChannel :=
  (c.prepare_xfer pid buf len).map (fun ch => ch.start_xfer)

/-- `DMAChannel::handle_interrupt`: disables all channel interrupts, reads
the peripheral-select register and, when a client is installed, reports
`xfer_done` with that peripheral (returned here as the second component).
The buffer slot is not touched. -/
def DMAChannel.handle_interrupt (c : DMAChannel) :
    DMAChannel × Option DMAPeripheral :=
  ({ c with imr := IntMask.allOff },
   if c.hasClient then some c.psr else none)

/-- `DMAChannel::abort_xfer`: disables all channel interrupts, resets the
transfer counter TCR to zero, and takes the buffer out of the channel's
`TakeCell` (second component; the slot is left empty). -/
def DMAChannel.abort_xfer (c : DMAChannel) : DMAChannel × Option Buffer :=
  ({ c with imr := IntMask.allOff, tcr := 0, buffer := none }, c.buffer)

/-- `DMAChannel::transfer_counter`: reads the 16-bit TCV field of TCR. -/
def DMAChannel.transfer_counter (c : DMAChannel) : Nat :=
  c.tcr % 2 ^ 16
/-- Shared PDCA state: the HSB and PBB clock gates for the PDCA block, the
global `NUM_ENABLED` refcount (a `usize`, so arithmetic wraps modulo
`2 ^ 64`), and the 16 channels of `DMA_CHANNELS`. -/
structure DmaSys where
  hsbClockOn : Bool
  pbbClockOn : Bool
  numEnabled : Nat
  chans : Fin 16 -> DMAChannel

/-- Boot state: `NUM_ENABLED = 0`, both PDCA clocks off, every channel in its
`DMAChannel::new` state. -/
def DmaSys.boot : DmaSys :=
  { hsbClockOn := false
    pbbClockOn := false
    numEnabled := 0
    chans := fun _ => DMAChannel.new }

/-- Both PDCA clocks running. -/
def DmaSys.clocksOn (s : DmaSys) : Bool :=
  s.hsbClockOn && s.pbbClockOn

/-- Channel-local effect of `DMAChannel::enable`: all channel interrupts
disabled via IDR, channel marked enabled. -/
def chanEnable (c : DMAChannel) : DMAChannel :=
  { c with imr := IntMask.allOff, enabled := true }

/-- Channel-local effect of `DMAChannel::disable`: CR TDIS clears the
transfer-enabled status, channel marked disabled. -/
def chanDisable (c : DMAChannel) : DMAChannel :=
  { c with ten := false, enabled := false }

/-- `DMAChannel::enable` for channel `i`, acting on the shared state.  The
source first enables both PDCA clocks unconditionally; then, when the
channel was not yet enabled, it increments `NUM_ENABLED` (`atomic_xadd`
returns the pre-increment value, which the source compares against 1,
enabling the clocks again on a hit), disables all channel interrupts via
IDR, and marks the channel enabled. -/
def DmaSys.enable (s : DmaSys) (i : Fin 16) : DmaSys :=
  let s1 : DmaSys := { s with hsbClockOn := true, pbbClockOn := true }
  if !(s1.chans i).enabled then
    let pre := s1.numEnabled
    let s2 : DmaSys := { s1 with numEnabled := (pre + 1) % 2 ^ 64 }
    let s3 : DmaSys :=
      if pre = 1 then { s2 with hsbClockOn := true, pbbClockOn := true }
      else s2
    { s3 with
      chans := Function.update s3.chans i (chanEnable (s3.chans i)) }
  else s1

/-- `DMAChannel::disable` for channel `i`: when the channel is enabled, the
source decrements `NUM_ENABLED` (`atomic_xsub` returns the pre-decrement
value; `usize` arithmetic wraps), disables both PDCA clocks when that
pre-decrement value was 1, issues the CR TDIS command (clearing the
transfer-enabled status), and marks the channel disabled.  It does not
touch the interrupt mask, the transfer counter, or the buffer slot. -/
def DmaSys.disable (s : DmaSys) (i : Fin 16) : DmaSys :=
  if (s.chans i).enabled then
    let pre := s.numEnabled
    let s2 : DmaSys := { s with numEnabled := (pre + (2 ^ 64 - 1)) % 2 ^ 64 }
    let s3 : DmaSys :=
      if pre = 1 then { s2 with hsbClockOn := false, pbbClockOn := false }
      else s2
    { s3 with
      chans := Function.update s3.chans i (chanDisable (s3.chans i)) }
  else s

/-- One call in a boot-to-now history of `enable` / `disable` operations. -/
inductive DmaOp where
  | enable (i : Fin 16)
  | disable (i : Fin 16)

/-- Run a sequence of `enable` / `disable` calls from a given state. -/
def DmaSys.run (s : DmaSys) : List DmaOp -> DmaSys
  | [] => s
  | DmaOp.enable i :: ops => (s.enable i).run ops
  | DmaOp.disable i :: ops => (s.disable i).run ops

/-- Number of channels currently marked enabled. -/
def DmaSys.enabledCount (s : DmaSys) : Nat :=
  ∑ i : Fin 16, if (s.chans i).enabled then 1 else 0

/-- The clock-refcount coupling maintained by `enable` / `disable` from boot:
`NUM_ENABLED` counts the enabled channels (in particular it stays below the
`usize` wrap-around), and each PDCA clock is on exactly when the refcount is
positive. -/
def DmaSys.Inv (s : DmaSys) : Prop :=
  s.numEnabled = s.enabledCount
    ∧ (s.hsbClockOn = true ↔ 0 < s.numEnabled)
    ∧ (s.pbbClockOn = true ↔ 0 < s.numEnabled)
/-- Fuel-driven bit count: `countOnesFuel fuel n` is the number of set bits
of `n` provided `n < 2 ^ fuel`. -/
def countOnesFuel : Nat -> Nat -> Nat
  | 0, _ => 0
  | fuel + 1, n => if n = 0 then 0 else n % 2 + countOnesFuel fuel (n / 2)

/-- `usize::count_ones` (`binary_index.count_ones()` in do_work); 64 bits of
fuel cover every `usize` value. -/
def countOnes (n : Nat) : Nat := countOnesFuel 64 n

/-- Fuel-driven bit length: `bitLenFuel fuel n` is the position of the
highest set bit of `n` plus one, provided `n < 2 ^ fuel`. -/
def bitLenFuel : Nat -> Nat -> Nat
  | 0, _ => 0
  | fuel + 1, n => if n = 0 then 0 else bitLenFuel fuel (n / 2) + 1

/-- Bit length of a `u32` value (32 bits of fuel). -/
def bitLen (n : Nat) : Nat := bitLenFuel 32 n

/-- `u32::leading_zeros` of `binary_index as u32` (the cast truncates to 32
bits). -/
def leadingZeros32 (n : Nat) : Nat := 32 - bitLen (n % 2 ^ 32)

/-- Modelled from the spec: the `align4needed!` macro lives in
userland/tools/elf2tbf/src/util.rs, which is not among the sources; per the
spec every section is "padded up to 4 bytes", so this is the number of bytes
needed to pad `x` to the next multiple of 4. -/
def align4needed (x : Nat) : Nat := (4 - x % 4) % 4

/-- Trailing-padding computation of `do_work` (main.rs): when `binary_index`
has more than one set bit, pad to `max(1 << (32 - (binary_index as
u32).leading_zeros()), 512)`; otherwise (already a power of two, or zero)
add no padding. -/
def postContentPad (binaryIndex : Nat) : Nat :=
  if 1 < countOnes binaryIndex then
    max (2 ^ (32 - leadingZeros32 binaryIndex)) 512 - binaryIndex
  else 0

/-- Inputs of elf2tbf's `do_work` that feed its layout and header
arithmetic.  `stackLen`, `appHeapLen`, `kernelHeapLen` are the `u32` CLI
byte counts; `xShdrSize` is the ELF section header size of section `x`
(`shdr.size as u32`; used for the RAM sizing of .got/.data/.bss) and
`xDataLen` the length of its file bytes (used for the flash layout);
`relDataLen` is the length of the .rel.data bytes.  `headerLength` stands
for the value returned by `header::TbfHeader::create` — modelled from the
spec, see `specExampleHeaderLength`. -/
structure Elf2TbfInput where
  stackLen : Nat
  appHeapLen : Nat
  kernelHeapLen : Nat
  includeCrt0Header : Bool
  headerLength : Nat
  appstateShdrSize : Nat
  textDataLen : Nat
  gotShdrSize : Nat
  gotDataLen : Nat
  dataShdrSize : Nat
  dataDataLen : Nat
  bssShdrSize : Nat
  relDataLen : Nat

/-- Modelled from the spec: `header::TbfHeader::create` (header.rs, not
among the sources) returns the length of the TBF header it builds.  The
spec says the header is variable-length and "ends on 4-byte alignment", and
its worked end-to-end scenario uses a 76-byte header; the length is
therefore kept as the input field `headerLength`, constrained in theorems
to be a multiple of 4, with 76 as the concrete example value. -/
def specExampleHeaderLength : Nat := 76

/-- Offsets computed while `do_work` advances `binary_index` over the image:
TBF header, optional 40-byte crt0 header (ten `u32` fields), `.app_state`,
`.text`, `.got`, `.data`, then a `u32` length word plus `.rel.data`, each
padded to a multiple of 4, and finally the trailing padding. -/
structure TbfLayout where
  appStart : Nat
  appstateOffset : Nat
  sectionStartText : Nat
  sectionStartGot : Nat
  sectionStartData : Nat
  sectionStartRelData : Nat
  binaryIndexPrePad : Nat
  padLen : Nat
  totalSize : Nat

/-- The `binary_index` bookkeeping of `do_work` (main.rs lines 200-259). -/
def do_work_layout (inp : Elf2TbfInput) : TbfLayout :=
  let b0 := inp.headerLength
  let appStart := b0
  let b1 := if inp.includeCrt0Header then b0 + 40 else b0
  let appstateOffset := b1
  let b2 := b1 + inp.appstateShdrSize + align4needed inp.appstateShdrSize
  let sText := b2
  let b3 := b2 + inp.textDataLen + align4needed inp.textDataLen
  let sGot := b3
  let b4 := b3 + inp.gotDataLen + align4needed inp.gotDataLen
  let sData := b4
  let b5 := b4 + inp.dataDataLen + align4needed inp.dataDataLen
  let sRel := b5
  let b6 := b5 + inp.relDataLen + align4needed inp.relDataLen + 4
  let pad := postContentPad b6
  { appStart := appStart
    appstateOffset := appstateOffset
    sectionStartText := sText
    sectionStartGot := sGot
    sectionStartData := sData
    sectionStartRelData := sRel
    binaryIndexPrePad := b6
    padLen := pad
    totalSize := b6 + pad }

/-- `minimum_ram_size` of `do_work` (main.rs lines 197-198): the sum of the
stack, the two heaps, and the .got/.data/.bss section-header sizes, in
`u32` arithmetic. -/
def minimumRamSize (inp : Elf2TbfInput) : Nat :=
  (inp.stackLen + inp.appHeapLen + inp.kernelHeapLen
    + inp.gotShdrSize + inp.dataShdrSize + inp.bssShdrSize) % 2 ^ 32

/-- The ten `u32` fields of the crt0 header (main.rs `Crt0Header`). -/
structure Crt0Header where
  got_sym_start : Nat
  got_start : Nat
  got_size : Nat
  data_sym_start : Nat
  data_start : Nat
  data_size : Nat
  bss_start : Nat
  bss_size : Nat
  reldata_start : Nat
  text_offset : Nat

/-- The crt0 header built by `do_work` (main.rs lines 263-280): flash
offsets are section starts relative to `app_start` (usize values cast to
`u32`), and the RAM layout places the GOT at offset 0, the data section
after it, and the BSS after both (`u32` additions). -/
def do_work_crt0header (inp : Elf2TbfInput) : Crt0Header :=
  let L := do_work_layout inp
  { got_sym_start := (L.sectionStartGot - L.appStart) % 2 ^ 32
    got_start := 0
    got_size := inp.gotShdrSize
    data_sym_start := (L.sectionStartData - L.appStart) % 2 ^ 32
    data_start := (0 + inp.gotShdrSize) % 2 ^ 32
    data_size := inp.dataShdrSize
    bss_start := ((0 + inp.gotShdrSize) % 2 ^ 32 + inp.dataShdrSize) % 2 ^ 32
    bss_size := inp.bssShdrSize
    reldata_start := (L.sectionStartRelData - L.appStart) % 2 ^ 32
    text_offset := (L.sectionStartText - L.appStart) % 2 ^ 32 }
/-- The nine capsule references held by the nrf52dk `Platform` struct
(boards/nrf52dk/src/main.rs), in the order of the `with_driver` match arms:
console, gpio, alarm, led, button, rng, ble_advertising_driver
(`bleAdv`), temperature (`temp`), ipc. -/
inductive Capsule where
  | console
  | gpio
  | alarm
  | led
  | button
  | rng
  | bleAdv
  | temp
  | ipc
  deriving DecidableEq

/-- Modelled from the spec: the `DRIVER_NUM` constants matched by
`Platform::with_driver` live in the capsules and kernel crates, which are
not among the sources.  The spec says driver ids are statically assigned
32-bit constants, unique across a platform, so they are kept as abstract
values here. -/
structure DriverNums where
  console : Nat
  gpio : Nat
  alarm : Nat
  led : Nat
  button : Nat
  rng : Nat
  bleAdv : Nat
  temp : Nat
  ipc : Nat

/-- Uniqueness of the platform's driver ids (required by the spec: "Driver
ids are assigned statically per capsule type and must be unique across a
platform"). -/
def DriverNums.Distinct (ns : DriverNums) : Prop :=
  List.Pairwise (fun a b => a ≠ b)
    [ns.console, ns.gpio, ns.alarm, ns.led, ns.button, ns.rng,
     ns.bleAdv, ns.temp, ns.ipc]

/-- `Platform::with_driver` (nrf52dk main.rs lines 131-147): matches
`driver_num` against the capsules' `DRIVER_NUM` constants in source order
and invokes the continuation `f` exactly once — with `some` capsule on a
hit, with `none` on the wildcard arm — returning `f`'s result. -/
def Platform.with_driver {R : Type} (ns : DriverNums) (driver_num : Nat)
    (f : Option Capsule -> R) : R :=
  if driver_num = ns.console then f (some Capsule.console)
  else if driver_num = ns.gpio then f (some Capsule.gpio)
  else if driver_num = ns.alarm then f (some Capsule.alarm)
  else if driver_num = ns.led then f (some Capsule.led)
  else if driver_num = ns.button then f (some Capsule.button)
  else if driver_num = ns.rng then f (some Capsule.rng)
  else if driver_num = ns.bleAdv then f (some Capsule.bleAdv)
  else if driver_num = ns.temp then f (some Capsule.temp)
  else if driver_num = ns.ipc then f (some Capsule.ipc)
  else f none

/-- The driver lookup `with_driver` performs, separated from the
continuation call: the capsule, if any, whose `DRIVER_NUM` matches
`driver_num` first. -/
def Platform.driverFor (ns : DriverNums) (driver_num : Nat) : Option Capsule :=
  if driver_num = ns.console then some Capsule.console
  else if driver_num = ns.gpio then some Capsule.gpio
  else if driver_num = ns.alarm then some Capsule.alarm
  else if driver_num = ns.led then some Capsule.led
  else if driver_num = ns.button then some Capsule.button
  else if driver_num = ns.rng then some Capsule.rng
  else if driver_num = ns.bleAdv then some Capsule.bleAdv
  else if driver_num = ns.temp then some Capsule.temp
  else if driver_num = ns.ipc then some Capsule.ipc
  else none
/-- A demonstration transfer buffer (address 2048, three bytes). -/
def demoBuf : Buffer := { addr := 2048, data := [1, 2, 3] }

/-- A channel mid-transfer: enabled, transfer started, `demoBuf` stored.
Reachable by `enable()` followed by `do_xfer(_, demoBuf, _)`. -/
def c4ActiveChannel : DMAChannel :=
  { DMAChannel.new with enabled := true, ten := true, buffer := some demoBuf }

/-- The replacement buffer offered while `c4ActiveChannel` is still active. -/
def c4NewBuf : Buffer := { addr := 4096, data := [9, 9] }

/-- A 16-bit-wide channel (as left by `initialize(client, Width16Bit)`). -/
def c3DemoChannel : DMAChannel :=
  { DMAChannel.new with width := DMAWidth.Width16Bit }

/-- A 100-byte buffer for the spec's clamping example. -/
def c3DemoBuf : Buffer := { addr := 8192, data := List.replicate 100 0 }

/-- The PDCA state after `enable()` on channel 0 followed by
`do_xfer(SPI_RX, demoBuf, 3)` on that channel: channel 0 is Active with
`demoBuf` stored. -/
def c7ActiveSys : DmaSys :=
  let s := DmaSys.boot.enable 0
  { s with
    chans := Function.update s.chans 0
      (((s.chans 0).do_xfer DMAPeripheral.SPI_RX demoBuf 3).getD (s.chans 0)) }

/-- ImageBuilder inputs whose pre-padding size is already a power of two
smaller than 512: the spec's 76-byte TBF header, no crt0 header, a 48-byte
`.text` and nothing else, giving `binary_index = 76 + 48 + 4 = 128`. -/
def c5CounterInput : Elf2TbfInput :=
  { stackLen := 1024
    appHeapLen := 1024
    kernelHeapLen := 1024
    includeCrt0Header := false
    headerLength := specExampleHeaderLength
    appstateShdrSize := 0
    textDataLen := 48
    gotShdrSize := 0
    gotDataLen := 0
    dataShdrSize := 0
    dataDataLen := 0
    bssShdrSize := 0
    relDataLen := 0 }

/-- ImageBuilder inputs with a 100-byte `.text`: `binary_index = 180`, which
has four set bits, so trailing padding is applied and the image is padded to
512 bytes. -/
def c5WitnessInput : Elf2TbfInput :=
  { c5CounterInput with textDataLen := 100 }

/-- ImageBuilder inputs for the RAM-layout example: stack 2048, app heap
1024, kernel heap 512, `.got` 32 B, `.data` 16 B, `.bss` 64 B. -/
def c8Input : Elf2TbfInput :=
  { stackLen := 2048
    appHeapLen := 1024
    kernelHeapLen := 512
    includeCrt0Header := true
    headerLength := specExampleHeaderLength
    appstateShdrSize := 0
    textDataLen := 200
    gotShdrSize := 32
    gotDataLen := 32
    dataShdrSize := 16
    dataDataLen := 16
    bssShdrSize := 64
    relDataLen := 8 }

/-- A concrete distinct assignment of the nine driver ids (the values are
the historical Tock driver numbers; only their distinctness matters). -/
def demoDriverNums : DriverNums :=
  { console := 0
    gpio := 1
    alarm := 3
    led := 2
    button := 9
    rng := 14
    bleAdv := 33
    temp := 36
    ipc := 255 }
theorem pow64_val : (2 : Nat) ^ 64 = 18446744073709551616 := by norm_num

theorem pow32_val : (2 : Nat) ^ 32 = 4294967296 := by norm_num

theorem chanEnable_enabled (c : DMAChannel) : (chanEnable c).enabled = true :=
  rfl

theorem chanDisable_enabled (c : DMAChannel) :
    (chanDisable c).enabled = false :=
  rfl

theorem sum_enabled_update (f : Fin 16 -> DMAChannel) (i : Fin 16)
    (b : DMAChannel) :
    (∑ j : Fin 16, if (Function.update f i b j).enabled then (1 : Nat) else 0)
        + (if (f i).enabled then 1 else 0)
      = (∑ j : Fin 16, if (f j).enabled then (1 : Nat) else 0)
        + (if b.enabled then 1 else 0) := by
  rw [← Finset.sum_erase_add Finset.univ _ (Finset.mem_univ i),
    ← Finset.sum_erase_add Finset.univ
      (fun j : Fin 16 => if (f j).enabled then (1 : Nat) else 0)
      (Finset.mem_univ i)]
  have h1 : ∀ j ∈ Finset.univ.erase i,
      (if (Function.update f i b j).enabled then (1 : Nat) else 0)
        = if (f j).enabled then (1 : Nat) else 0 := by
    intro j hj
    rw [Function.update_noteq (Finset.ne_of_mem_erase hj)]
  rw [Finset.sum_congr rfl h1, Function.update_same]
  omega

theorem sum_enabled_update_enable (f : Fin 16 -> DMAChannel) (i : Fin 16)
    (he : (f i).enabled = false) :
    (∑ j : Fin 16,
        if (Function.update f i (chanEnable (f i)) j).enabled then (1 : Nat)
        else 0)
      = (∑ j : Fin 16, if (f j).enabled then (1 : Nat) else 0) + 1 := by
  have h := sum_enabled_update f i (chanEnable (f i))
  rw [he, chanEnable_enabled] at h
  simp only [Bool.false_eq_true, if_false, eq_self_iff_true, if_true] at h
  omega

theorem sum_enabled_update_disable (f : Fin 16 -> DMAChannel) (i : Fin 16)
    (he : (f i).enabled = true) :
    (∑ j : Fin 16,
        if (Function.update f i (chanDisable (f i)) j).enabled then (1 : Nat)
        else 0) + 1
      = (∑ j : Fin 16, if (f j).enabled then (1 : Nat) else 0) := by
  have h := sum_enabled_update f i (chanDisable (f i))
  rw [he, chanDisable_enabled] at h
  simp only [Bool.false_eq_true, if_false, eq_self_iff_true, if_true] at h
  omega

theorem enabledCount_pos (s : DmaSys) (i : Fin 16)
    (h : (s.chans i).enabled = true) : 0 < s.enabledCount := by
  unfold DmaSys.enabledCount
  have hle := Finset.single_le_sum
    (f := fun j : Fin 16 => if (s.chans j).enabled then (1 : Nat) else 0)
    (fun j _ => Nat.zero_le _) (Finset.mem_univ i)
  simp only [h, if_true] at hle
  omega

theorem enabledCount_le16 (s : DmaSys) : s.enabledCount ≤ 16 := by
  unfold DmaSys.enabledCount
  calc (∑ j : Fin 16, if (s.chans j).enabled then (1 : Nat) else 0)
      ≤ ∑ _j : Fin 16, 1 :=
        Finset.sum_le_sum (fun j _ => by split <;> omega)
    _ = 16 := by simp

theorem enable_proj_enabled (s : DmaSys) (i : Fin 16)
    (he : (s.chans i).enabled = true) :
    (s.enable i).hsbClockOn = true ∧ (s.enable i).pbbClockOn = true
      ∧ (s.enable i).numEnabled = s.numEnabled
      ∧ (s.enable i).chans = s.chans := by
  unfold DmaSys.enable
  simp [he]

theorem enable_proj_not_enabled (s : DmaSys) (i : Fin 16)
    (he : (s.chans i).enabled = false) :
    (s.enable i).hsbClockOn = true ∧ (s.enable i).pbbClockOn = true
      ∧ (s.enable i).numEnabled = (s.numEnabled + 1) % 2 ^ 64
      ∧ (s.enable i).chans
          = Function.update s.chans i (chanEnable (s.chans i)) := by
  unfold DmaSys.enable
  by_cases hpre : s.numEnabled = 1 <;> simp [he, hpre]

theorem disable_proj_enabled (s : DmaSys) (i : Fin 16)
    (he : (s.chans i).enabled = true) :
    (s.disable i).hsbClockOn = (if s.numEnabled = 1 then false else s.hsbClockOn)
      ∧ (s.disable i).pbbClockOn
          = (if s.numEnabled = 1 then false else s.pbbClockOn)
      ∧ (s.disable i).numEnabled = (s.numEnabled + (2 ^ 64 - 1)) % 2 ^ 64
      ∧ (s.disable i).chans
          = Function.update s.chans i (chanDisable (s.chans i)) := by
  unfold DmaSys.disable
  by_cases hpre : s.numEnabled = 1 <;> simp [he, hpre]

theorem disable_proj_not_enabled (s : DmaSys) (i : Fin 16)
    (he : (s.chans i).enabled = false) :
    s.disable i = s := by
  unfold DmaSys.disable
  simp [he]

theorem enabledCount_chans (s : DmaSys) (f : Fin 16 -> DMAChannel)
    (h : s.chans = f) :
    s.enabledCount = ∑ j : Fin 16, if (f j).enabled then (1 : Nat) else 0 := by
  unfold DmaSys.enabledCount
  rw [h]

theorem enable_clocks (s : DmaSys) (i : Fin 16) :
    (s.enable i).hsbClockOn = true ∧ (s.enable i).pbbClockOn = true := by
  by_cases he : (s.chans i).enabled
  · exact ⟨(enable_proj_enabled s i he).1, (enable_proj_enabled s i he).2.1⟩
  · have he' : (s.chans i).enabled = false := by simpa using he
    exact ⟨(enable_proj_not_enabled s i he').1,
      (enable_proj_not_enabled s i he').2.1⟩

theorem inv_boot : DmaSys.boot.Inv := by
  refine ⟨?_, ?_, ?_⟩ <;>
    simp [DmaSys.boot, DmaSys.enabledCount, DMAChannel.new]

theorem inv_enable (s : DmaSys) (i : Fin 16) (h : s.Inv) :
    (s.enable i).Inv := by
  obtain ⟨hc, hh, hp⟩ := h
  by_cases he : (s.chans i).enabled
  · obtain ⟨e1, e2, e3, e4⟩ := enable_proj_enabled s i he
    have hpos : 0 < s.numEnabled := by
      rw [hc]
      exact enabledCount_pos s i he
    refine ⟨?_, ?_, ?_⟩
    · rw [e3, enabledCount_chans _ _ e4]
      exact hc
    · rw [e1, e3]
      exact iff_of_true rfl hpos
    · rw [e2, e3]
      exact iff_of_true rfl hpos
  · have he' : (s.chans i).enabled = false := by simpa using he
    obtain ⟨e1, e2, e3, e4⟩ := enable_proj_not_enabled s i he'
    have hle : s.numEnabled ≤ 16 := by
      rw [hc]
      exact enabledCount_le16 s
    have hmod : (s.numEnabled + 1) % 2 ^ 64 = s.numEnabled + 1 := by
      rw [pow64_val]
      omega
    have hcount := sum_enabled_update_enable s.chans i he' 
    refine ⟨?_, ?_, ?_⟩
    · rw [e3, hmod, enabledCount_chans _ _ e4]
      unfold DmaSys.enabledCount at hc
      omega
    · rw [e1, e3, hmod]
      exact iff_of_true rfl (by omega)
    · rw [e2, e3, hmod]
      exact iff_of_true rfl (by omega)

theorem inv_disable (s : DmaSys) (i : Fin 16) (h : s.Inv) :
    (s.disable i).Inv := by
  obtain ⟨hc, hh, hp⟩ := h
  by_cases he : (s.chans i).enabled
  · obtain ⟨e1, e2, e3, e4⟩ := disable_proj_enabled s i he
    have hpos : 0 < s.numEnabled := by
      rw [hc]
      exact enabledCount_pos s i he
    have hle : s.numEnabled ≤ 16 := by
      rw [hc]
      exact enabledCount_le16 s
    have hmod : (s.numEnabled + (2 ^ 64 - 1)) % 2 ^ 64 = s.numEnabled - 1 := by
      rw [pow64_val]
      omega
    have hcount := sum_enabled_update_disable s.chans i he
    have hcnt : (s.disable i).enabledCount = s.enabledCount - 1 := by
      rw [enabledCount_chans _ _ e4]
      unfold DmaSys.enabledCount
      omega
    by_cases hone : s.numEnabled = 1
    · refine ⟨?_, ?_, ?_⟩
      · rw [e3, hmod, hcnt, hone, ← hc, hone]
      · rw [e1, e3, hmod, hone, if_pos rfl]
        exact iff_of_false (by simp) (by omega)
      · rw [e2, e3, hmod, hone, if_pos rfl]
        exact iff_of_false (by simp) (by omega)
    · refine ⟨?_, ?_, ?_⟩
      · rw [e3, hmod, hcnt, hc]
      · rw [e1, e3, hmod, if_neg hone]
        exact iff_of_true (hh.mpr hpos) (by omega)
      · rw [e2, e3, hmod, if_neg hone]
        exact iff_of_true (hp.mpr hpos) (by omega)
  · rw [disable_proj_not_enabled s i (by simpa using he)]
    exact ⟨hc, hh, hp⟩

theorem inv_run (ops : List DmaOp) (s : DmaSys) (h : s.Inv) :
    (s.run ops).Inv := by
  induction ops generalizing s with
  | nil => exact h
  | cons op ops ih =>
    cases op with
    | enable i =>
      show ((s.enable i).run ops).Inv
      exact ih _ (inv_enable s i h)
    | disable i =>
      show ((s.disable i).run ops).Inv
      exact ih _ (inv_disable s i h)
theorem countOnesFuel_eq_zero :
    ∀ (fuel n : Nat), n < 2 ^ fuel → countOnesFuel fuel n = 0 → n = 0 := by
  intro fuel
  induction fuel with
  | zero =>
    intro n hn _
    simpa using hn
  | succ fuel ih =>
    intro n hn h
    by_cases h0 : n = 0
    · exact h0
    · exfalso
      rw [show countOnesFuel (fuel + 1) n
          = if n = 0 then 0 else n % 2 + countOnesFuel fuel (n / 2) from rfl,
        if_neg h0] at h
      have hpow : (2 : Nat) ^ (fuel + 1) = 2 * 2 ^ fuel := by ring
      have hdiv : n / 2 < 2 ^ fuel := by omega
      have h2 : countOnesFuel fuel (n / 2) = 0 := by omega
      have := ih (n / 2) hdiv h2
      omega

theorem countOnesFuel_eq_one :
    ∀ (fuel n : Nat), n < 2 ^ fuel → countOnesFuel fuel n = 1 →
      ∃ k, n = 2 ^ k := by
  intro fuel
  induction fuel with
  | zero =>
    intro n hn h
    exact absurd h (by simp [countOnesFuel])
  | succ fuel ih =>
    intro n hn h
    by_cases h0 : n = 0
    · exact absurd h (by simp [countOnesFuel, h0])
    · rw [show countOnesFuel (fuel + 1) n
          = if n = 0 then 0 else n % 2 + countOnesFuel fuel (n / 2) from rfl,
        if_neg h0] at h
      have hpow : (2 : Nat) ^ (fuel + 1) = 2 * 2 ^ fuel := by ring
      have hdiv : n / 2 < 2 ^ fuel := by omega
      rcases Nat.mod_two_eq_zero_or_one n with hm | hm
      · have h2 : countOnesFuel fuel (n / 2) = 1 := by omega
        obtain ⟨k, hk⟩ := ih (n / 2) hdiv h2
        refine ⟨k + 1, ?_⟩
        have hsplit : n = 2 * (n / 2) := by omega
        rw [hsplit, hk]
        ring
      · have h2 : countOnesFuel fuel (n / 2) = 0 := by omega
        have hz := countOnesFuel_eq_zero fuel (n / 2) hdiv h2
        refine ⟨0, ?_⟩
        simp only [pow_zero]
        omega

theorem bitLenFuel_le : ∀ (fuel n : Nat), bitLenFuel fuel n ≤ fuel := by
  intro fuel
  induction fuel with
  | zero =>
    intro n
    simp [bitLenFuel]
  | succ fuel ih =>
    intro n
    by_cases h0 : n = 0
    · simp [bitLenFuel, h0]
    · rw [show bitLenFuel (fuel + 1) n
          = if n = 0 then 0 else bitLenFuel fuel (n / 2) + 1 from rfl,
        if_neg h0]
      exact Nat.succ_le_succ (ih (n / 2))

theorem lt_two_pow_bitLenFuel :
    ∀ (fuel n : Nat), n < 2 ^ fuel → n < 2 ^ bitLenFuel fuel n := by
  intro fuel
  induction fuel with
  | zero =>
    intro n hn
    simpa [bitLenFuel] using hn
  | succ fuel ih =>
    intro n hn
    by_cases h0 : n = 0
    · simp [bitLenFuel, h0]
    · rw [show bitLenFuel (fuel + 1) n
          = if n = 0 then 0 else bitLenFuel fuel (n / 2) + 1 from rfl,
        if_neg h0]
      have hpow : (2 : Nat) ^ (fuel + 1) = 2 * 2 ^ fuel := by ring
      have hdiv : n / 2 < 2 ^ fuel := by omega
      have hrec := ih (n / 2) hdiv
      have hpow2 : (2 : Nat) ^ (bitLenFuel fuel (n / 2) + 1)
          = 2 * 2 ^ bitLenFuel fuel (n / 2) := by ring
      omega

theorem binaryIndex_mod_four (inp : Elf2TbfInput)
    (h4 : inp.headerLength % 4 = 0) :
    (do_work_layout inp).binaryIndexPrePad % 4 = 0 := by
  unfold do_work_layout align4needed
  by_cases hc : inp.includeCrt0Header <;> simp [hc] <;> omega

theorem four_le_binaryIndex (inp : Elf2TbfInput) :
    4 ≤ (do_work_layout inp).binaryIndexPrePad := by
  unfold do_work_layout
  by_cases hc : inp.includeCrt0Header <;> simp [hc]

theorem totalSize_eq_pad (inp : Elf2TbfInput) :
    (do_work_layout inp).totalSize
      = (do_work_layout inp).binaryIndexPrePad
        + postContentPad (do_work_layout inp).binaryIndexPrePad := rfl
/-- Claim C1: for every sequence of enable/disable calls from boot, the PDCA
clocks are on exactly when the `NUM_ENABLED` refcount is positive; an
`enable` turns the clocks on (off-to-on) exactly when the pre-increment
refcount was zero, and a `disable` of an enabled channel turns them off
exactly when the post-decrement refcount is zero. -/
theorem c1_clock_refcount_invariant :
    ∀ ops : List DmaOp,
      (DmaSys.clocksOn (DmaSys.boot.run ops) = true
        ↔ 0 < (DmaSys.boot.run ops).numEnabled)
      ∧ (∀ i : Fin 16,
          (DmaSys.clocksOn (DmaSys.boot.run ops) = false
            ∧ DmaSys.clocksOn ((DmaSys.boot.run ops).enable i) = true)
          ↔ (DmaSys.boot.run ops).numEnabled = 0)
      ∧ (∀ i : Fin 16, ((DmaSys.boot.run ops).chans i).enabled = true →
          ((DmaSys.clocksOn (DmaSys.boot.run ops) = true
            ∧ DmaSys.clocksOn ((DmaSys.boot.run ops).disable i) = false)
          ↔ ((DmaSys.boot.run ops).disable i).numEnabled = 0)) := by
  intro ops
  set s := DmaSys.boot.run ops with hs
  have hinv := inv_run ops DmaSys.boot inv_boot
  rw [← hs] at hinv
  obtain ⟨hc, hh, hp⟩ := hinv
  have hiff : s.clocksOn = true ↔ 0 < s.numEnabled := by
    unfold DmaSys.clocksOn
    rw [Bool.and_eq_true]
    exact ⟨fun hb => hh.mp hb.1, fun hb => ⟨hh.mpr hb, hp.mpr hb⟩⟩
  refine ⟨hiff, ?_, ?_⟩
  · intro i
    have hen := enable_clocks s i
    have henOn : DmaSys.clocksOn (s.enable i) = true := by
      unfold DmaSys.clocksOn
      rw [hen.1, hen.2]
      rfl
    constructor
    · intro hb
      have hno : ¬ (0 < s.numEnabled) := fun hposn => by
        have := hiff.mpr hposn
        rw [hb.1] at this
        exact Bool.false_ne_true this
      omega
    · intro hz
      refine ⟨?_, henOn⟩
      cases hcl : s.clocksOn with
      | false => rfl
      | true => exact absurd (hiff.mp hcl) (by omega)
  · intro i hie
    obtain ⟨d1, d2, d3, d4⟩ := disable_proj_enabled s i hie
    have hposn : 0 < s.numEnabled := by
      rw [hc]
      exact enabledCount_pos s i hie
    have hlen : s.numEnabled ≤ 16 := by
      rw [hc]
      exact enabledCount_le16 s
    have hmod : (s.numEnabled + (2 ^ 64 - 1)) % 2 ^ 64 = s.numEnabled - 1 := by
      rw [pow64_val]
      omega
    have hclsOn : s.clocksOn = true := hiff.mpr hposn
    by_cases hone : s.numEnabled = 1
    · have hoff : DmaSys.clocksOn (s.disable i) = false := by
        unfold DmaSys.clocksOn
        rw [d1, d2, if_pos hone, if_pos hone]
        rfl
      have hz : (s.disable i).numEnabled = 0 := by
        rw [d3, hmod, hone]
      exact iff_of_true ⟨hclsOn, hoff⟩ hz
    · have hstay : DmaSys.clocksOn (s.disable i) = true := by
        unfold DmaSys.clocksOn
        rw [d1, d2, if_neg hone, if_neg hone]
        unfold DmaSys.clocksOn at hclsOn
        exact hclsOn
      have hnz : ¬ ((s.disable i).numEnabled = 0) := by
        rw [d3, hmod]
        omega
      refine iff_of_false ?_ hnz
      intro hb
      rw [hstay] at hb
      exact absurd hb.2 (by simp)

/-- Witness for C1 at the concrete history `[enable 0]`: channel 0 is
enabled, and disabling it (post-decrement refcount zero) turns the clocks
off. -/
theorem c1_witness :
    ((DmaSys.boot.run [DmaOp.enable 0]).chans 0).enabled = true
    ∧ ((DmaSys.clocksOn (DmaSys.boot.run [DmaOp.enable 0]) = true
        ∧ DmaSys.clocksOn ((DmaSys.boot.run [DmaOp.enable 0]).disable 0) = false)
      ↔ ((DmaSys.boot.run [DmaOp.enable 0]).disable 0).numEnabled = 0) :=
  ⟨by decide, (c1_clock_refcount_invariant [DmaOp.enable 0]).2.2 0 (by decide)⟩

/-- Claim C2: a transfer begun with `do_xfer` and completed by
`handle_interrupt` leaves the very buffer passed to `do_xfer` in the
channel; `abort_xfer` masks all channel interrupts, zeroes TCR (so
`transfer_counter` reads 0) and returns that buffer; an immediately
following second `abort_xfer` returns `none`, as does `abort_xfer` on a
channel with no stored buffer. -/
theorem c2_buffer_reclaimable_once :
    (∀ (c : DMAChannel) (pid : DMAPeripheral) (buf : Buffer) (len : Nat),
      buf.data ≠ [] → (DMAChannel.do_xfer c pid buf len).isSome = true)
    ∧ (∀ (c : DMAChannel) (pid : DMAPeripheral) (buf : Buffer) (len : Nat)
        (c1 : DMAChannel), DMAChannel.do_xfer c pid buf len = some c1 →
        ((c1.handle_interrupt).1.abort_xfer).2 = some buf
        ∧ DMAChannel.transfer_counter ((c1.handle_interrupt).1.abort_xfer).1 = 0
        ∧ ((c1.handle_interrupt).1.abort_xfer).1.imr = IntMask.allOff
        ∧ (((c1.handle_interrupt).1.abort_xfer).1.abort_xfer).2 = none)
    ∧ (∀ c : DMAChannel, c.buffer = none → (c.abort_xfer).2 = none) := by
  refine ⟨?_, ?_, ?_⟩
  · intro c pid buf len hne
    unfold DMAChannel.do_xfer DMAChannel.prepare_xfer
    cases hb : buf.data with
    | nil => exact absurd hb hne
    | cons x xs => rfl
  · intro c pid buf len c1 h
    unfold DMAChannel.do_xfer DMAChannel.prepare_xfer at h
    cases hb : buf.data with
    | nil =>
      rw [hb] at h
      simp at h
    | cons x xs =>
      rw [hb] at h
      injection h with h
      subst h
      exact ⟨rfl, rfl, rfl, rfl⟩
  · intro c hbuf
    exact hbuf

/-- Witness for C2: a two-byte transfer on a fresh channel; the stored
buffer comes back from the first abort, the second abort yields nothing,
and a fresh channel has nothing to abort. -/
theorem c2_witness :
    (DMAChannel.do_xfer DMAChannel.new DMAPeripheral.SPI_RX c4NewBuf 2).isSome
      = true
    ∧ ((((DMAChannel.do_xfer DMAChannel.new DMAPeripheral.SPI_RX c4NewBuf
          2).getD DMAChannel.new).handle_interrupt).1.abort_xfer).2
        = some c4NewBuf
    ∧ (DMAChannel.new.abort_xfer).2 = none :=
  ⟨c2_buffer_reclaimable_once.1 DMAChannel.new DMAPeripheral.SPI_RX c4NewBuf 2
      (by decide),
   (c2_buffer_reclaimable_once.2.1 DMAChannel.new DMAPeripheral.SPI_RX c4NewBuf
      2 _ (by decide)).1,
   c2_buffer_reclaimable_once.2.2 DMAChannel.new rfl⟩

/-- Claim C3: the effective transfer length written to TCRR by
`prepare_xfer` (and hence `do_xfer`) is `min(len, buf.length /
width_bytes)` with `width_bytes` 1/2/4 for the three widths (stated for
counts that fit the 16-bit TCV field). -/
theorem c3_effective_length :
    (DMAWidth.bytesPerUnit DMAWidth.Width8Bit = 1
      ∧ DMAWidth.bytesPerUnit DMAWidth.Width16Bit = 2
      ∧ DMAWidth.bytesPerUnit DMAWidth.Width32Bit = 4)
    ∧ (∀ (c : DMAChannel) (pid : DMAPeripheral) (buf : Buffer) (len : Nat),
        min len (buf.data.length / c.width.bytesPerUnit) < 2 ^ 16 →
        (∀ c1 : DMAChannel, DMAChannel.prepare_xfer c pid buf len = some c1 →
          c1.tcrr = min len (buf.data.length / c.width.bytesPerUnit))
        ∧ (∀ c2 : DMAChannel, DMAChannel.do_xfer c pid buf len = some c2 →
          c2.tcrr = min len (buf.data.length / c.width.bytesPerUnit))) := by
  refine ⟨⟨rfl, rfl, rfl⟩, ?_⟩
  intro c pid buf len hlt
  constructor
  · intro c1 h
    unfold DMAChannel.prepare_xfer at h
    cases hb : buf.data with
    | nil =>
      rw [hb] at h
      simp at h
    | cons x xs =>
      rw [hb] at h
      injection h with h
      subst h
      rw [hb] at hlt
      exact Nat.mod_eq_of_lt hlt
  · intro c2 h
    unfold DMAChannel.do_xfer DMAChannel.prepare_xfer at h
    cases hb : buf.data with
    | nil =>
      rw [hb] at h
      simp at h
    | cons x xs =>
      rw [hb] at h
      injection h with h
      subst h
      rw [hb] at hlt
      exact Nat.mod_eq_of_lt hlt

/-- Witness for C3 at the spec's example: 16-bit width, 100-byte buffer,
requested length 80 — the armed count is `min 80 (100 / 2) = 50`. -/
theorem c3_witness :
    ((DMAChannel.prepare_xfer c3DemoChannel DMAPeripheral.USART0_RX c3DemoBuf
        80).getD DMAChannel.new).tcrr = 50 :=
  (((c3_effective_length.2 c3DemoChannel DMAPeripheral.USART0_RX c3DemoBuf 80
      (by decide)).1 _ (by decide)).trans (by decide))

/-- Counterexample for C4: `prepare_xfer` on a channel that is already
Active (buffer stored, transfer started) is not rejected — the call
succeeds, replaces the stored buffer with the new one, and the channel is
not left untouched. -/
theorem c4_counterexample :
    (DMAChannel.prepare_xfer c4ActiveChannel DMAPeripheral.SPI_RX c4NewBuf
        2).isSome = true
    ∧ ((DMAChannel.prepare_xfer c4ActiveChannel DMAPeripheral.SPI_RX c4NewBuf
        2).getD DMAChannel.new).buffer = some c4NewBuf
    ∧ ((DMAChannel.prepare_xfer c4ActiveChannel DMAPeripheral.SPI_RX c4NewBuf
        2).getD DMAChannel.new).buffer ≠ some demoBuf
    ∧ DMAChannel.prepare_xfer c4ActiveChannel DMAPeripheral.SPI_RX c4NewBuf 2
        ≠ some c4ActiveChannel := by
  decide

/-- Claim C4 as amended: a second transfer on an Active channel is not
rejected: `prepare_xfer` (and `do_xfer`) performs no busy check; it
reprograms the channel registers, re-arms the TRC interrupt, and replaces
the stored buffer with the new one (the previous buffer is discarded). -/
theorem c4_no_busy_check :
    ∀ (c : DMAChannel) (pid : DMAPeripheral) (buf : Buffer) (len : Nat),
      c.buffer.isSome = true → buf.data ≠ [] →
      (DMAChannel.prepare_xfer c pid buf len).isSome = true
      ∧ (∀ c1 : DMAChannel, DMAChannel.prepare_xfer c pid buf len = some c1 →
          c1.buffer = some buf ∧ c1.psr = pid ∧ c1.imr.trc = true) := by
  intro c pid buf len _hact hne
  constructor
  · unfold DMAChannel.prepare_xfer
    cases hb : buf.data with
    | nil => exact absurd hb hne
    | cons x xs => rfl
  · intro c1 h
    unfold DMAChannel.prepare_xfer at h
    cases hb : buf.data with
    | nil =>
      rw [hb] at h
      simp at h
    | cons x xs =>
      rw [hb] at h
      injection h with h
      subst h
      exact ⟨rfl, rfl, rfl⟩

/-- Witness for C4 (amended) on the concrete Active channel: the second
transfer is accepted and the new buffer is stored. -/
theorem c4_witness :
    (DMAChannel.prepare_xfer c4ActiveChannel DMAPeripheral.SPI_RX c4NewBuf
        2).isSome = true
    ∧ ((DMAChannel.prepare_xfer c4ActiveChannel DMAPeripheral.SPI_RX c4NewBuf
        2).getD DMAChannel.new).buffer = some c4NewBuf :=
  ⟨(c4_no_busy_check c4ActiveChannel DMAPeripheral.SPI_RX c4NewBuf 2
      (by decide) (by decide)).1,
   ((c4_no_busy_check c4ActiveChannel DMAPeripheral.SPI_RX c4NewBuf 2
      (by decide) (by decide)).2 _ (by decide)).1⟩

set_option maxRecDepth 8000 in
/-- Counterexample for C5: with the spec's 76-byte header and a 48-byte
`.text`, the pre-padding size is 128 — already a power of two — so no
trailing padding is added and the emitted image is 128 bytes, below 512. -/
theorem c5_counterexample :
    (do_work_layout c5CounterInput).totalSize = 128
    ∧ ¬ 512 ≤ (do_work_layout c5CounterInput).totalSize := by
  decide

/-- Claim C5 as amended: the emitted `total_size` is always a power of two
and a multiple of 4, and it is at least 512 whenever trailing padding is
applied (pre-padding size with more than one set bit); but when the
pre-padding size is already a power of two, no padding is added and
`total_size` equals it — which can be below 512. -/
theorem c5_total_size_power_of_two (inp : Elf2TbfInput)
    (h4 : inp.headerLength % 4 = 0)
    (h32 : (do_work_layout inp).binaryIndexPrePad < 2 ^ 32) :
    (∃ k, (do_work_layout inp).totalSize = 2 ^ k)
    ∧ (do_work_layout inp).totalSize % 4 = 0
    ∧ (1 < countOnes (do_work_layout inp).binaryIndexPrePad →
        512 ≤ (do_work_layout inp).totalSize)
    ∧ (countOnes (do_work_layout inp).binaryIndexPrePad ≤ 1 →
        (do_work_layout inp).totalSize
          = (do_work_layout inp).binaryIndexPrePad) := by
  have hb4 := binaryIndex_mod_four inp h4
  have hb1 := four_le_binaryIndex inp
  set bi := (do_work_layout inp).binaryIndexPrePad with hbi
  have hTeq : (do_work_layout inp).totalSize = bi + postContentPad bi :=
    totalSize_eq_pad inp
  by_cases hco : 1 < countOnes bi
  · have hpad : postContentPad bi
        = max (2 ^ (32 - leadingZeros32 bi)) 512 - bi := by
      unfold postContentPad
      rw [if_pos hco]
    have hmodbi : bi % 2 ^ 32 = bi := Nat.mod_eq_of_lt h32
    have hlz : 32 - leadingZeros32 bi = bitLen bi := by
      unfold leadingZeros32
      rw [hmodbi]
      have := bitLenFuel_le 32 bi
      unfold bitLen
      omega
    have hlt : bi < 2 ^ bitLen bi := lt_two_pow_bitLenFuel 32 bi h32
    have hmax : bi ≤ max (2 ^ bitLen bi) 512 :=
      le_trans (le_of_lt hlt) (le_max_left _ _)
    have hT : (do_work_layout inp).totalSize = max (2 ^ bitLen bi) 512 := by
      rw [hTeq, hpad, hlz]
      omega
    refine ⟨?_, ?_, ?_, ?_⟩
    · rcases le_total ((2 : Nat) ^ bitLen bi) 512 with hle | hle
      · exact ⟨9, by rw [hT, max_eq_right hle]; rfl⟩
      · exact ⟨bitLen bi, by rw [hT, max_eq_left hle]⟩
    · rcases le_total ((2 : Nat) ^ bitLen bi) 512 with hle | hle
      · rw [hT, max_eq_right hle]
      · rw [hT, max_eq_left hle]
        have hb9 : 9 ≤ bitLen bi := by
          by_contra hlt9
          push_neg at hlt9
          have h8 : (2 : Nat) ^ bitLen bi ≤ 2 ^ 8 :=
            Nat.pow_le_pow_right (by norm_num) (by omega)
          have h256 : (2 : Nat) ^ 8 = 256 := by norm_num
          omega
        have hsplit : bitLen bi = (bitLen bi - 2) + 2 := by omega
        have h4d : (2 : Nat) ^ bitLen bi = 2 ^ (bitLen bi - 2) * 4 := by
          rw [hsplit, pow_add]
          norm_num
        omega
    · intro _
      rw [hT]
      exact le_max_right _ _
    · intro hle1
      omega
  · push_neg at hco
    have hpad0 : postContentPad bi = 0 := by
      unfold postContentPad
      rw [if_neg (by omega)]
    have hTbi : (do_work_layout inp).totalSize = bi := by
      rw [hTeq, hpad0]
      omega
    have h64 : bi < 2 ^ 64 := by
      rw [pow64_val]
      rw [pow32_val] at h32
      omega
    have hc0 : ¬ countOnes bi = 0 := by
      intro hz
      have := countOnesFuel_eq_zero 64 bi h64 hz
      omega
    have hc1 : countOnesFuel 64 bi = 1 := by
      unfold countOnes at hco hc0
      omega
    obtain ⟨k, hk⟩ := countOnesFuel_eq_one 64 bi h64 hc1
    exact ⟨⟨k, by rw [hTbi, hk]⟩, by rw [hTbi]; exact hb4,
      fun hgt => absurd hgt (by omega), fun _ => hTbi⟩

set_option maxRecDepth 8000 in
/-- Witness for C5 (amended) at a 180-byte pre-padding size: padding is
applied and the image is exactly 512 bytes, a power of two. -/
theorem c5_witness :
    (∃ k, (do_work_layout c5WitnessInput).totalSize = 2 ^ k)
    ∧ (do_work_layout c5WitnessInput).totalSize % 4 = 0
    ∧ (1 < countOnes (do_work_layout c5WitnessInput).binaryIndexPrePad →
        512 ≤ (do_work_layout c5WitnessInput).totalSize)
    ∧ (countOnes (do_work_layout c5WitnessInput).binaryIndexPrePad ≤ 1 →
        (do_work_layout c5WitnessInput).totalSize
          = (do_work_layout c5WitnessInput).binaryIndexPrePad) :=
  c5_total_size_power_of_two c5WitnessInput (by decide) (by decide)

set_option maxRecDepth 8000 in
/-- Counterexample for C6: the byte value 13 has no variant — `lookup 13`
falls through to the wildcard arm and yields `UNUSED255`, whose tag is 255,
so the round trip fails at 13. -/
theorem c6_counterexample :
    DMAPeripheral.toU8 (DMAPeripheral.lookup 13) = 255
    ∧ (255 : Nat) ≠ 13 := by
  decide

set_option maxRecDepth 8000 in
/-- Claim C6 as amended: `DMAPeripheral` has a variant for every byte value
except 13 (the source jumps from `CATB_RX = 12` to `IISC_CH0_RX = 14`);
`lookup` round-trips every byte except 13, and `lookup (p as u8) = p` holds
for every variant `p`; `lookup 13` yields `UNUSED255`. -/
theorem c6_lookup_round_trip :
    (∀ n : Nat, n < 256 → n ≠ 13 →
      DMAPeripheral.toU8 (DMAPeripheral.lookup n) = n)
    ∧ (∀ p : DMAPeripheral, DMAPeripheral.lookup (DMAPeripheral.toU8 p) = p)
    ∧ DMAPeripheral.lookup 13 = DMAPeripheral.UNUSED255 := by
  refine ⟨by decide, ?_, by decide⟩
  intro p
  cases p <;> rfl

/-- Witness for C6 (amended): the round trip at 14 and at the `SPI_RX`
variant. -/
theorem c6_witness :
    DMAPeripheral.toU8 (DMAPeripheral.lookup 14) = 14
    ∧ DMAPeripheral.lookup (DMAPeripheral.toU8 DMAPeripheral.SPI_RX)
        = DMAPeripheral.SPI_RX :=
  ⟨c6_lookup_round_trip.1 14 (by decide) (by decide),
   c6_lookup_round_trip.2.1 DMAPeripheral.SPI_RX⟩

/-- Counterexample for C7: on a channel that is Active (enabled, transfer
started via `do_xfer`, buffer stored), `disable()` does not first abort:
afterwards the buffer is still stored in the channel and the TRC interrupt
is still unmasked. -/
theorem c7_counterexample :
    ((c7ActiveSys.chans 0).enabled = true
      ∧ (c7ActiveSys.chans 0).buffer = some demoBuf
      ∧ (c7ActiveSys.chans 0).imr.trc = true)
    ∧ ((c7ActiveSys.disable 0).chans 0).buffer = some demoBuf
    ∧ ((c7ActiveSys.disable 0).chans 0).imr.trc = true
    ∧ ((c7ActiveSys.disable 0).chans 0).enabled = false := by
  decide

/-- Claim C7 as amended: `disable()` on an enabled channel releases the
clock, issues the transfer-disable command and marks the channel disabled,
but performs no abort: the stored buffer, the transfer counter and the
interrupt mask are left unchanged (the buffer must be reclaimed separately
via `abort_xfer`). -/
theorem c7_disable_does_not_abort :
    ∀ (s : DmaSys) (i : Fin 16), (s.chans i).enabled = true →
      ((s.disable i).chans i).buffer = (s.chans i).buffer
      ∧ ((s.disable i).chans i).tcr = (s.chans i).tcr
      ∧ ((s.disable i).chans i).imr = (s.chans i).imr
      ∧ ((s.disable i).chans i).enabled = false
      ∧ ((s.disable i).chans i).ten = false := by
  intro s i he
  obtain ⟨-, -, -, d4⟩ := disable_proj_enabled s i he
  rw [d4, Function.update_same]
  exact ⟨rfl, rfl, rfl, rfl, rfl⟩

/-- Witness for C7 (amended) on the concrete Active system. -/
theorem c7_witness :
    ((c7ActiveSys.disable 0).chans 0).buffer = (c7ActiveSys.chans 0).buffer
    ∧ ((c7ActiveSys.disable 0).chans 0).tcr = (c7ActiveSys.chans 0).tcr
    ∧ ((c7ActiveSys.disable 0).chans 0).imr = (c7ActiveSys.chans 0).imr
    ∧ ((c7ActiveSys.disable 0).chans 0).enabled = false
    ∧ ((c7ActiveSys.disable 0).chans 0).ten = false :=
  c7_disable_does_not_abort c7ActiveSys 0 (by decide)

/-- Claim C8: `minimum_ram_size` is the sum of stack, the two heaps and the
.got/.data/.bss section sizes, and the crt0 header places the GOT at RAM
offset 0, the data section at offset `got_size`, and the BSS at offset
`got_size + data_size` (stated below the `u32` wrap-around). -/
theorem c8_minimum_ram_and_ram_layout (inp : Elf2TbfInput)
    (hsum : inp.stackLen + inp.appHeapLen + inp.kernelHeapLen
        + inp.gotShdrSize + inp.dataShdrSize + inp.bssShdrSize < 2 ^ 32) :
    minimumRamSize inp
      = inp.stackLen + inp.appHeapLen + inp.kernelHeapLen
        + inp.gotShdrSize + inp.dataShdrSize + inp.bssShdrSize
    ∧ (do_work_crt0header inp).got_start = 0
    ∧ (do_work_crt0header inp).data_start = inp.gotShdrSize
    ∧ (do_work_crt0header inp).bss_start
        = inp.gotShdrSize + inp.dataShdrSize := by
  unfold minimumRamSize do_work_crt0header
  rw [pow32_val] at hsum
  refine ⟨?_, ?_, ?_, ?_⟩
  · rw [pow32_val]
    omega
  · rfl
  · show (0 + inp.gotShdrSize) % 2 ^ 32 = inp.gotShdrSize
    rw [pow32_val]
    omega
  · show ((0 + inp.gotShdrSize) % 2 ^ 32 + inp.dataShdrSize) % 2 ^ 32
        = inp.gotShdrSize + inp.dataShdrSize
    rw [pow32_val]
    omega

/-- Witness for C8 at the concrete inputs (stack 2048, app heap 1024,
kernel heap 512, got 32, data 16, bss 64): RAM requirement 3696, GOT at 0,
data at 32, BSS at 48. -/
theorem c8_witness :
    minimumRamSize c8Input = 3696
    ∧ (do_work_crt0header c8Input).got_start = 0
    ∧ (do_work_crt0header c8Input).data_start = 32
    ∧ (do_work_crt0header c8Input).bss_start = 48 :=
  ⟨((c8_minimum_ram_and_ram_layout c8Input (by decide)).1).trans (by decide),
   (c8_minimum_ram_and_ram_layout c8Input (by decide)).2.1,
   ((c8_minimum_ram_and_ram_layout c8Input (by decide)).2.2.1).trans
     (by decide),
   ((c8_minimum_ram_and_ram_layout c8Input (by decide)).2.2.2).trans
     (by decide)⟩

/-- Claim C9: `with_driver` invokes the continuation exactly once and
returns its result — with the registered capsule when `driver_num` is one
of the platform's distinct driver ids, and with nothing for every other
`driver_num`. -/
theorem c9_with_driver_dispatch :
    (∀ (R : Type) (ns : DriverNums) (n : Nat) (f : Option Capsule -> R),
        Platform.with_driver ns n f = f (Platform.driverFor ns n))
    ∧ (∀ ns : DriverNums, ns.Distinct →
        Platform.driverFor ns ns.console = some Capsule.console
        ∧ Platform.driverFor ns ns.gpio = some Capsule.gpio
        ∧ Platform.driverFor ns ns.alarm = some Capsule.alarm
        ∧ Platform.driverFor ns ns.led = some Capsule.led
        ∧ Platform.driverFor ns ns.button = some Capsule.button
        ∧ Platform.driverFor ns ns.rng = some Capsule.rng
        ∧ Platform.driverFor ns ns.bleAdv = some Capsule.bleAdv
        ∧ Platform.driverFor ns ns.temp = some Capsule.temp
        ∧ Platform.driverFor ns ns.ipc = some Capsule.ipc)
    ∧ (∀ (ns : DriverNums) (n : Nat),
        n ≠ ns.console → n ≠ ns.gpio → n ≠ ns.alarm → n ≠ ns.led →
        n ≠ ns.button → n ≠ ns.rng → n ≠ ns.bleAdv → n ≠ ns.temp →
        n ≠ ns.ipc → Platform.driverFor ns n = none) := by
  refine ⟨?_, ?_, ?_⟩
  · intro R ns n f
    unfold Platform.with_driver Platform.driverFor
    split_ifs <;> rfl
  · intro ns hd
    simp only [DriverNums.Distinct, List.pairwise_cons, List.mem_cons,
      List.mem_singleton, List.not_mem_nil, forall_eq_or_imp, forall_eq,
      and_true] at hd
    obtain ⟨⟨hcg, hca, hcl, hcb, hcr, hcbl, hct, hci⟩,
      ⟨hga, hgl, hgb, hgr, hgbl, hgt, hgi⟩,
      ⟨hal, hab, har, habl, hat, hai⟩,
      ⟨hlb, hlr, hlbl, hlt2, hli⟩,
      ⟨hbr, hbbl, hbt, hbi⟩,
      ⟨hrbl, hrt, hri⟩,
      ⟨hblt, hbli⟩, hti⟩ := hd
    refine ⟨?_, ?_, ?_, ?_, ?_, ?_, ?_, ?_, ?_⟩ <;>
      simp [Platform.driverFor, hcg, hca, hcl, hcb, hcr, hcbl, hct, hci,
        hga, hgl, hgb, hgr, hgbl, hgt, hgi, hal, hab, har, habl, hat, hai,
        hlb, hlr, hlbl, hlt2, hli, hbr, hbbl, hbt, hbi, hrbl, hrt, hri,
        hblt, hbli, hti, Ne.symm]
  · intro ns n h1 h2 h3 h4 h5 h6 h7 h8 h9
    unfold Platform.driverFor
    simp [h1, h2, h3, h4, h5, h6, h7, h8, h9]

/-- Witness for C9 at a concrete distinct id assignment: dispatch equals
continuation-of-lookup, the GPIO id resolves to the GPIO capsule, and an
unassigned id (57) resolves to nothing. -/
theorem c9_witness :
    Platform.with_driver demoDriverNums 57 (fun o => Option.isSome o)
      = Option.isSome (Platform.driverFor demoDriverNums 57)
    ∧ Platform.driverFor demoDriverNums demoDriverNums.gpio
        = some Capsule.gpio
    ∧ Platform.driverFor demoDriverNums 57 = none :=
  ⟨c9_with_driver_dispatch.1 Bool demoDriverNums 57 (fun o => Option.isSome o),
   (c9_with_driver_dispatch.2.1 demoDriverNums
      (by unfold DriverNums.Distinct; decide)).2.1,
   c9_with_driver_dispatch.2.2 demoDriverNums 57 (by decide) (by decide)
     (by decide) (by decide) (by decide) (by decide) (by decide) (by decide)
     (by decide)⟩

/-- Claim C10: `prepare_xfer` (and `do_xfer`) indexes `&buf[0]`, so a
buffer of length at least 1 makes the call succeed with the index in
bounds, while a zero-length buffer makes it panic (modelled as `none`)
rather than return an invalid-argument failure — a non-empty buffer is a
necessary precondition at this interface. -/
theorem c10_nonempty_buffer_precondition :
    ∀ (c : DMAChannel) (pid : DMAPeripheral) (buf : Buffer) (len : Nat),
      (1 ≤ buf.data.length →
        (DMAChannel.prepare_xfer c pid buf len).isSome = true
        ∧ (DMAChannel.do_xfer c pid buf len).isSome = true)
      ∧ (buf.data.length = 0 →
        DMAChannel.prepare_xfer c pid buf len = none
        ∧ DMAChannel.do_xfer c pid buf len = none) := by
  intro c pid buf len
  cases hb : buf.data with
  | nil =>
    refine ⟨fun h1 => ?_, fun _ => ?_⟩
    · simp at h1
    · unfold DMAChannel.do_xfer DMAChannel.prepare_xfer
      rw [hb]
      exact ⟨rfl, rfl⟩
  | cons x xs =>
    refine ⟨fun _ => ?_, fun h0 => ?_⟩
    · unfold DMAChannel.do_xfer DMAChannel.prepare_xfer
      rw [hb]
      exact ⟨rfl, rfl⟩
    · simp at h0

/-- Witness for C10: a one-byte buffer succeeds, an empty buffer panics. -/
theorem c10_witness :
    (DMAChannel.prepare_xfer DMAChannel.new DMAPeripheral.USART0_RX
        { addr := 1024, data := [5] } 1).isSome = true
    ∧ DMAChannel.prepare_xfer DMAChannel.new DMAPeripheral.USART0_RX
        { addr := 1024, data := [] } 1 = none :=
  ⟨((c10_nonempty_buffer_precondition DMAChannel.new DMAPeripheral.USART0_RX
      { addr := 1024, data := [5] } 1).1 (by decide)).1,
   ((c10_nonempty_buffer_precondition DMAChannel.new DMAPeripheral.USART0_RX
      { addr := 1024, data := [] } 1).2 (by decide)).1⟩
